import Mathlib

/-!
Shallow embedding of the `aad-add-to-group` action (an Azure AD / Microsoft
Graph "add user to group" automation) and verification of its specified
behaviour.  The JavaScript sources embedded here are `src/script.mjs`
(handlers `invoke` / `error`) and `dist/index.js` (the bundled variant whose
authentication resolver `getAuthorizationHeader` supports four credential
schemes).  Network effects are modelled by an explicit oracle
`HttpRequest → Except String HttpResponse` plus a trace of emitted effects
(sleeps and HTTP requests), so that "no network call happens" and "exactly
one retry request" are provable statements.
-/

namespace AadAddToGroup

/-- JavaScript truthiness of an optional string value: `undefined` and the
empty string are falsy, every other string is truthy. -/
def Truthy (o : Option String) : Bool :=
  match o with
  | none => false
  | some s => !s.isEmpty

/-- JavaScript `a || b` on optional string values. -/
def jsOr (a b : Option String) : Option String :=
  if Truthy a then a else b

/-- JavaScript string coercion of a possibly-undefined value, as performed by
template literals and `encodeURIComponent`: `undefined` becomes the string
`"undefined"`. -/
def jsToString (o : Option String) : String :=
  o.getD "undefined"

/-- Does the character list `l` start with `sub`?  Backs the model of
JavaScript `String.prototype.includes`. -/
def startsWithList : List Char → List Char → Bool
  | _, [] => true
  | [], _ :: _ => false
  | a :: as, b :: bs => a == b && startsWithList as bs

/-- Does `sub` occur contiguously inside `l`?  Backs the model of
JavaScript `String.prototype.includes`. -/
def containsList : List Char → List Char → Bool
  | [], sub => startsWithList [] sub
  | l@(_ :: rest), sub => startsWithList l sub || containsList rest sub

/-- Model of JavaScript `s.includes(sub)`: substring containment. -/
def includesSub (s sub : String) : Bool :=
  containsList s.data sub.data

/-- Uppercase hexadecimal digit for `n < 16`, as produced by JavaScript
`encodeURIComponent`. -/
def hexDigitChar (n : Nat) : Char :=
  if n < 10 then Char.ofNat (48 + n) else Char.ofNat (55 + n)

/-- Numeric value of a hexadecimal digit character (either case), used by the
standard percent-decoder. -/
def hexVal (c : Char) : Option Nat :=
  if 48 ≤ c.toNat ∧ c.toNat ≤ 57 then some (c.toNat - 48)
  else if 65 ≤ c.toNat ∧ c.toNat ≤ 70 then some (c.toNat - 55)
  else if 97 ≤ c.toNat ∧ c.toNat ≤ 102 then some (c.toNat - 87)
  else none

/-- UTF-8 encoding of a Unicode scalar value, written with arithmetic on
`Nat` (the byte layout used by `encodeURIComponent` for non-ASCII input). -/
def utf8Bytes (n : Nat) : List Nat :=
  if n < 128 then [n]
  else if n < 2048 then [192 + n / 64, 128 + n % 64]
  else if n < 65536 then [224 + n / 4096, 128 + n / 64 % 64, 128 + n % 64]
  else [240 + n / 262144, 128 + n / 4096 % 64, 128 + n / 64 % 64, 128 + n % 64]

/-- The characters `encodeURIComponent` leaves unescaped per ECMA-262:
ASCII alphanumerics and `- _ . ! ~ * ' ( )`. -/
def isUriUnreserved (c : Char) : Bool :=
  decide ((65 ≤ c.toNat ∧ c.toNat ≤ 90) ∨ (97 ≤ c.toNat ∧ c.toNat ≤ 122) ∨
    (48 ≤ c.toNat ∧ c.toNat ≤ 57) ∨ c.toNat = 45 ∨ c.toNat = 95 ∨ c.toNat = 46 ∨
    c.toNat = 33 ∨ c.toNat = 126 ∨ c.toNat = 42 ∨ c.toNat = 39 ∨ c.toNat = 40 ∨
    c.toNat = 41)

/-- Percent escape of a single byte, e.g. `%2B`, with uppercase hex. -/
def percentEncodeByte (b : Nat) : List Char :=
  ['%', hexDigitChar (b / 16), hexDigitChar (b % 16)]

/-- Encoding of one character as performed by `encodeURIComponent`:
unreserved characters pass through, everything else becomes the percent
escapes of its UTF-8 bytes. -/
def encodeChar (c : Char) : List Char :=
  if isUriUnreserved c then [c]
  else (utf8Bytes c.toNat).flatMap percentEncodeByte

/-- Model of JavaScript `encodeURIComponent`, used by `addUserToGroup` on the
group id (URL path) and the user principal name (OData reference body). -/
def encodeURIComponent (s : String) : String :=
  String.mk (s.data.flatMap encodeChar)

/-- Modelled from the spec: standard URL-component percent-decoding, stage 1.
Turns a percent-encoded character sequence back into the byte sequence it
denotes (`%XY` becomes one byte, any other character stands for its own code
point; a dangling or malformed escape is rejected). -/
def percentDecodeBytes : List Char → Option (List Nat)
  | [] => some []
  | [c] =>
    if c == '%' then none else (percentDecodeBytes []).map (fun bs => c.toNat :: bs)
  | [c, h] =>
    if c == '%' then none else (percentDecodeBytes [h]).map (fun bs => c.toNat :: bs)
  | c :: h :: l :: cs =>
    if c == '%' then
      match hexVal h, hexVal l with
      | some hv, some lv => (percentDecodeBytes cs).map (fun bs => (16 * hv + lv) :: bs)
      | _, _ => none
    else (percentDecodeBytes (h :: l :: cs)).map (fun bs => c.toNat :: bs)

/-- Modelled from the spec: standard URL-component percent-decoding, stage 2,
as a byte-at-a-time state machine.  `pending` counts the continuation bytes
still expected, `acc` holds the scalar value accumulated so far, and `low`
is the smallest scalar the current sequence may legally produce (the
overlong check).  Truncated sequences, stray continuation bytes, overlong
forms, surrogates and out-of-range values are all rejected, as in strict
UTF-8 decoding. -/
def utf8DecodeGo : Nat → Nat → Nat → List Nat → Option (List Char)
  | 0, _, _, [] => some []
  | _+1, _, _, [] => none
  | 0, _, _, b :: bs =>
    if b < 128 then (utf8DecodeGo 0 0 0 bs).map (fun cs => Char.ofNat b :: cs)
    else if b < 192 then none
    else if b < 224 then utf8DecodeGo 1 (b - 192) 128 bs
    else if b < 240 then utf8DecodeGo 2 (b - 224) 2048 bs
    else if b < 248 then utf8DecodeGo 3 (b - 240) 65536 bs
    else none
  | pending+1, acc, low, b :: bs =>
    if 128 ≤ b ∧ b < 192 then
      if pending = 0 then
        if low ≤ acc * 64 + (b - 128) ∧
            ¬(55296 ≤ acc * 64 + (b - 128) ∧ acc * 64 + (b - 128) < 57344) ∧
            acc * 64 + (b - 128) < 1114112 then
          (utf8DecodeGo 0 0 0 bs).map (fun cs => Char.ofNat (acc * 64 + (b - 128)) :: cs)
        else none
      else utf8DecodeGo pending (acc * 64 + (b - 128)) low bs
    else none

/-- Strict UTF-8 decoding of a byte sequence: the state machine started in
its neutral state. -/
def utf8Decode (l : List Nat) : Option (List Char) :=
  utf8DecodeGo 0 0 0 l

/-- Modelled from the spec: standard URL-component percent-decoding, the
composition of percent-unescaping and UTF-8 decoding.  This is the decoder
the round-trip property of §8 of the design refers to. -/
def decodeURIComponent (s : String) : Option String :=
  (percentDecodeBytes s.data).bind (fun bs => (utf8Decode bs).map String.mk)

/-- Base64 digit for a 6-bit value, standard alphabet (as produced by
Node's `Buffer.toString('base64')`). -/
def base64Char (n : Nat) : Char :=
  if n < 26 then Char.ofNat (65 + n)
  else if n < 52 then Char.ofNat (97 + (n - 26))
  else if n < 62 then Char.ofNat (48 + (n - 52))
  else if n = 62 then '+' else '/'

/-- Base64 encoding of a byte list, three bytes at a time with `=` padding. -/
def base64Chunks : List Nat → List Char
  | [] => []
  | [b0] => [base64Char (b0 / 4), base64Char (b0 % 4 * 16), '=', '=']
  | [b0, b1] => [base64Char (b0 / 4), base64Char (b0 % 4 * 16 + b1 / 16), base64Char (b1 % 16 * 4), '=']
  | b0 :: b1 :: b2 :: rest =>
    base64Char (b0 / 4) :: base64Char (b0 % 4 * 16 + b1 / 16) ::
    base64Char (b1 % 16 * 4 + b2 / 64) :: base64Char (b2 % 64) :: base64Chunks rest

/-- UTF-8 byte sequence of a string. -/
def stringUtf8Bytes (s : String) : List Nat :=
  s.data.flatMap (fun c => utf8Bytes c.toNat)

/-- Model of Node `Buffer.from(s).toString('base64')`. -/
def base64Encode (bs : List Nat) : String :=
  String.mk (base64Chunks bs)

/-- Serialization of one character under `application/x-www-form-urlencoded`
(the format produced by `URLSearchParams.toString()`): space becomes `+`,
alphanumerics and `* - . _` pass through, the rest is percent-escaped. -/
def formUrlEncodeChar (c : Char) : List Char :=
  if c == ' ' then ['+']
  else if decide ((48 ≤ c.toNat ∧ c.toNat ≤ 57) ∨ (65 ≤ c.toNat ∧ c.toNat ≤ 90) ∨
      (97 ≤ c.toNat ∧ c.toNat ≤ 122) ∨ c.toNat = 42 ∨ c.toNat = 45 ∨ c.toNat = 46 ∨
      c.toNat = 95) then [c]
  else (utf8Bytes c.toNat).flatMap percentEncodeByte

/-- Form-url-encoding of a whole string. -/
def formUrlEncode (s : String) : String :=
  String.mk (s.data.flatMap formUrlEncodeChar)

/-- Model of `URLSearchParams.toString()` on an ordered key/value list. -/
def formEncodeParams (ps : List (String × String)) : String :=
  String.intercalate "&" (ps.map (fun p => formUrlEncode p.1 ++ "=" ++ formUrlEncode p.2))

/-- An outbound HTTP request as handed to `fetch`. -/
structure HttpRequest where
  url : String
  method : String
  headers : List (String × String)
  body : String
deriving DecidableEq, Repr

/-- An HTTP response as observed by the action: status line, body text, and
the `access_token` field of the JSON body when the body parses as JSON and
has one (the only piece of response JSON the code ever reads). -/
structure HttpResponse where
  status : Nat
  statusText : String
  text : String
  accessTokenField : Option String
deriving DecidableEq, Repr

/-- WHATWG `Response.ok`: status in the 200–299 range. -/
def HttpResponse.ok (r : HttpResponse) : Bool :=
  decide (200 ≤ r.status ∧ r.status ≤ 299)

/-- Observable effects of a handler run: timed waits and HTTP requests. -/
inductive Effect where
  | sleep (ms : Nat)
  | httpRequest (req : HttpRequest)
deriving DecidableEq, Repr

/-- The network environment: what `fetch` answers for each request
(`Except.error` is a thrown network error). -/
abbrev Oracle := HttpRequest → Except String HttpResponse

/-- Environment variables read by the action (absent entries are `none`). -/
structure Env where
  ADDRESS : Option String := none
  OAUTH2_CLIENT_CREDENTIALS_TOKEN_URL : Option String := none
  OAUTH2_CLIENT_CREDENTIALS_CLIENT_ID : Option String := none
  OAUTH2_CLIENT_CREDENTIALS_SCOPE : Option String := none
  OAUTH2_CLIENT_CREDENTIALS_AUDIENCE : Option String := none
  OAUTH2_CLIENT_CREDENTIALS_AUTH_STYLE : Option String := none
deriving DecidableEq, Repr

/-- Secrets read by the action (absent entries are `none`). -/
structure Secrets where
  BEARER_AUTH_TOKEN : Option String := none
  BASIC_USERNAME : Option String := none
  BASIC_PASSWORD : Option String := none
  OAUTH2_AUTHORIZATION_CODE_ACCESS_TOKEN : Option String := none
  OAUTH2_CLIENT_CREDENTIALS_CLIENT_SECRET : Option String := none
deriving DecidableEq, Repr

/-- The execution context; `environment` and `secrets` may themselves be
absent (the code guards them with `?.`). -/
structure Context where
  environment : Option Env := none
  secrets : Option Secrets := none
deriving DecidableEq, Repr

/-- Input parameters of the `invoke` handler. -/
structure Params where
  userPrincipalName : Option String := none
  groupId : Option String := none
  address : Option String := none
deriving DecidableEq, Repr

/-- The outcome object returned by a handler (absent fields are `none`). -/
structure Outcome where
  status : String
  userPrincipalName : Option String := none
  groupId : Option String := none
  added : Option Bool := none
  message : Option String := none
deriving DecidableEq, Repr

/-- Parameters of the `error` recovery handler: the original identifiers
plus the triggering error's message. -/
structure ErrorParams where
  userPrincipalName : Option String := none
  groupId : Option String := none
  address : Option String := none
  errorMessage : String
deriving DecidableEq, Repr

/-- Reads `context.secrets?.<field>`. -/
def secretOf (ctx : Context) (f : Secrets → Option String) : Option String :=
  ctx.secrets.bind f

/-- Reads `context.environment?.<field>`. -/
def envOf (ctx : Context) (f : Env → Option String) : Option String :=
  ctx.environment.bind f

/-- Configuration record passed to `getClientCredentialsToken`. -/
structure TokenConfig where
  tokenUrl : Option String := none
  clientId : Option String := none
  clientSecret : Option String := none
  scope : Option String := none
  audience : Option String := none
  authStyle : Option String := none
deriving DecidableEq, Repr

/-- Embedding of `getClientCredentialsToken` (`src/script.mjs` lines 12-66 /
`dist/index.js`): the OAuth2 client-credentials token exchange.  The body of
an unsuccessful token response is reported via `resp.text` (the source
re-serializes it as JSON when possible, a formatting detail conflated
here, as is a JSON-parse failure of a successful response's body, conflated
with the missing-field case). -/
def getClientCredentialsToken (oracle : Oracle) (cfg : TokenConfig) :
    Except String String × List Effect :=
  let ps0 := [("grant_type", "client_credentials")]
  let ps1 := ps0 ++ (if Truthy cfg.scope then [("scope", jsToString cfg.scope)] else [])
  let ps2 := ps1 ++ (if Truthy cfg.audience then [("audience", jsToString cfg.audience)] else [])
  let inParams := cfg.authStyle == some "InParams"
  let ps3 := ps2 ++ (if inParams then
    [("client_id", jsToString cfg.clientId), ("client_secret", jsToString cfg.clientSecret)] else [])
  let headers0 := [("Content-Type", "application/x-www-form-urlencoded"), ("Accept", "application/json")]
  let headers := headers0 ++ (if inParams then [] else
    [("Authorization", "Basic " ++
      base64Encode (stringUtf8Bytes (jsToString cfg.clientId ++ ":" ++ jsToString cfg.clientSecret)))])
  match cfg.tokenUrl with
  | none => (.error "Failed to parse URL from undefined", [])
  | some u =>
    let req : HttpRequest := { url := u, method := "POST", headers := headers, body := formEncodeParams ps3 }
    match oracle req with
    | .error e => (.error e, [.httpRequest req])
    | .ok resp =>
      if !resp.ok then
        (.error ("OAuth2 token request failed: " ++ toString resp.status ++ " " ++
          resp.statusText ++ " - " ++ resp.text), [.httpRequest req])
      else if Truthy resp.accessTokenField then (.ok (jsToString resp.accessTokenField), [.httpRequest req])
      else (.error "No access_token in OAuth2 response", [.httpRequest req])

/-- The request built by `addUserToGroup` (`src/script.mjs` lines 76-107):
trailing-slash-stripped base address, percent-encoded group id in the URL
path, percent-encoded user principal name inside the OData reference body
(always against the fixed `graph.microsoft.com` host), and a
`Bearer `-normalized authorization header. -/
def membershipRequest (upn gid addr token : String) : HttpRequest :=
  let cleanAddress := if addr.endsWith "/" then addr.dropRight 1 else addr
  let url := cleanAddress ++ "/v1.0/groups/" ++ encodeURIComponent gid ++ "/members/$ref"
  let body := "\x7b\"@odata.id\":\"https://graph.microsoft.com/v1.0/users/" ++
    encodeURIComponent upn ++ "\"\x7d"
  let authHeader := if token.startsWith "Bearer " then token else "Bearer " ++ token
  { url := url, method := "POST",
    headers := [("Authorization", authHeader), ("Content-Type", "application/json"),
      ("Accept", "application/json")],
    body := body }

/-- Embedding of `addUserToGroup`: issue the membership POST and hand the
raw response back. -/
def addUserToGroup (oracle : Oracle) (upn gid addr token : String) :
    Except String HttpResponse × List Effect :=
  let req := membershipRequest upn gid addr token
  match oracle req with
  | .error e => (.error e, [.httpRequest req])
  | .ok r => (.ok r, [.httpRequest req])

/-- Embedding of the inline access-token resolution of `invoke` in
`src/script.mjs` (lines 164-187): authorization-code token first, then the
client-credentials flow (validated), otherwise a configuration error. -/
def resolveAccessTokenScript (oracle : Oracle) (ctx : Context) :
    Except String String × List Effect :=
  if Truthy (secretOf ctx Secrets.OAUTH2_AUTHORIZATION_CODE_ACCESS_TOKEN) then
    (.ok (jsToString (secretOf ctx Secrets.OAUTH2_AUTHORIZATION_CODE_ACCESS_TOKEN)), [])
  else if Truthy (secretOf ctx Secrets.OAUTH2_CLIENT_CREDENTIALS_CLIENT_SECRET) then
    let tokenUrl := envOf ctx Env.OAUTH2_CLIENT_CREDENTIALS_TOKEN_URL
    let clientId := envOf ctx Env.OAUTH2_CLIENT_CREDENTIALS_CLIENT_ID
    let clientSecret := secretOf ctx Secrets.OAUTH2_CLIENT_CREDENTIALS_CLIENT_SECRET
    if !Truthy tokenUrl || !Truthy clientId || !Truthy clientSecret then
      (.error "OAuth2 Client Credentials flow requires TOKEN_URL, CLIENT_ID, and CLIENT_SECRET", [])
    else
      getClientCredentialsToken oracle
        { tokenUrl := tokenUrl, clientId := clientId, clientSecret := clientSecret,
          scope := envOf ctx Env.OAUTH2_CLIENT_CREDENTIALS_SCOPE,
          audience := envOf ctx Env.OAUTH2_CLIENT_CREDENTIALS_AUDIENCE,
          authStyle := envOf ctx Env.OAUTH2_CLIENT_CREDENTIALS_AUTH_STYLE }
  else
    (.error "OAuth2 authentication is required. Configure either Authorization Code or Client Credentials flow.", [])

/-- Embedding of the `invoke` handler of `src/script.mjs` (lines 144-232):
validation, base-URL resolution, auth resolution, the membership request and
the response classification. -/
def invoke (oracle : Oracle) (params : Params) (ctx : Context) :
    Except String Outcome × List Effect :=
  if !Truthy params.userPrincipalName then (.error "userPrincipalName is required", [])
  else if !Truthy params.groupId then (.error "groupId is required", [])
  else
    let address := jsOr params.address (envOf ctx Env.ADDRESS)
    if !Truthy address then
      (.error "No URL specified. Provide either address parameter or ADDRESS environment variable", [])
    else
      match resolveAccessTokenScript oracle ctx with
      | (.error e, eff) => (.error e, eff)
      | (.ok accessToken, eff) =>
        match addUserToGroup oracle (jsToString params.userPrincipalName)
            (jsToString params.groupId) (jsToString address) accessToken with
        | (.error e, eff2) => (.error e, eff ++ eff2)
        | (.ok r, eff2) =>
          if r.status == 204 then
            (.ok { status := "success", userPrincipalName := params.userPrincipalName,
                   groupId := params.groupId, added := some true }, eff ++ eff2)
          else if r.status == 400 then
            if includesSub r.text "already a member" then
              (.ok { status := "success", userPrincipalName := params.userPrincipalName,
                     groupId := params.groupId, added := some false,
                     message := some "User is already a member of the group" }, eff ++ eff2)
            else (.error ("Bad request: " ++ r.text), eff ++ eff2)
          else
            (.error ("Failed to add user to group: " ++ toString r.status ++ " " ++
              r.statusText ++ " - " ++ r.text), eff ++ eff2)

/-- A token value used verbatim if it already carries the `Bearer ` marker,
otherwise prepended with it (the normalization applied by
`getAuthorizationHeader` to static tokens). -/
def bearerize (token : String) : String :=
  if token.startsWith "Bearer " then token else "Bearer " ++ token

/-- The configuration error raised by `getAuthorizationHeader` when no
credential scheme is configured; it names all four accepted schemes. -/
def noAuthConfiguredMessage : String :=
  "No authentication configured. Provide one of: BEARER_AUTH_TOKEN, BASIC_USERNAME/BASIC_PASSWORD, OAUTH2_AUTHORIZATION_CODE_ACCESS_TOKEN, or OAUTH2_CLIENT_CREDENTIALS_*"

/-- Embedding of `getAuthorizationHeader` (`dist/index.js` lines 287-336):
the four-scheme authentication resolver, tried in fixed priority order
(static bearer, basic, pre-issued OAuth2 access token, OAuth2 client
credentials). -/
def getAuthorizationHeader (oracle : Oracle) (ctx : Context) :
    Except String String × List Effect :=
  if Truthy (secretOf ctx Secrets.BEARER_AUTH_TOKEN) then
    (.ok (bearerize (jsToString (secretOf ctx Secrets.BEARER_AUTH_TOKEN))), [])
  else if Truthy (secretOf ctx Secrets.BASIC_PASSWORD) &&
      Truthy (secretOf ctx Secrets.BASIC_USERNAME) then
    (.ok ("Basic " ++ base64Encode (stringUtf8Bytes
      (jsToString (secretOf ctx Secrets.BASIC_USERNAME) ++ ":" ++
        jsToString (secretOf ctx Secrets.BASIC_PASSWORD)))), [])
  else if Truthy (secretOf ctx Secrets.OAUTH2_AUTHORIZATION_CODE_ACCESS_TOKEN) then
    (.ok (bearerize (jsToString (secretOf ctx Secrets.OAUTH2_AUTHORIZATION_CODE_ACCESS_TOKEN))), [])
  else if Truthy (secretOf ctx Secrets.OAUTH2_CLIENT_CREDENTIALS_CLIENT_SECRET) then
    let tokenUrl := envOf ctx Env.OAUTH2_CLIENT_CREDENTIALS_TOKEN_URL
    let clientId := envOf ctx Env.OAUTH2_CLIENT_CREDENTIALS_CLIENT_ID
    if !Truthy tokenUrl || !Truthy clientId then
      (.error "OAuth2 Client Credentials flow requires TOKEN_URL and CLIENT_ID in env", [])
    else
      match getClientCredentialsToken oracle
        { tokenUrl := tokenUrl, clientId := clientId,
          clientSecret := secretOf ctx Secrets.OAUTH2_CLIENT_CREDENTIALS_CLIENT_SECRET,
          scope := envOf ctx Env.OAUTH2_CLIENT_CREDENTIALS_SCOPE,
          audience := envOf ctx Env.OAUTH2_CLIENT_CREDENTIALS_AUDIENCE,
          authStyle := envOf ctx Env.OAUTH2_CLIENT_CREDENTIALS_AUTH_STYLE } with
      | (.ok t, eff) => (.ok ("Bearer " ++ t), eff)
      | (.error e, eff) => (.error e, eff)
  else
    (.error noAuthConfiguredMessage, [])

/-- The access-token resolution inside the retry branch of the `error`
handler of `src/script.mjs` (lines 257-269).  Unlike the `invoke` path it
performs no validation; when neither OAuth2 secret is present the token
stays `undefined` and the subsequent `accessToken.startsWith` call inside
`addUserToGroup` raises a `TypeError` before any request is sent, modelled
here as the error result. -/
def retryAuthResolve (oracle : Oracle) (ctx : Context) :
    Except String String × List Effect :=
  if Truthy (secretOf ctx Secrets.OAUTH2_AUTHORIZATION_CODE_ACCESS_TOKEN) then
    (.ok (jsToString (secretOf ctx Secrets.OAUTH2_AUTHORIZATION_CODE_ACCESS_TOKEN)), [])
  else if Truthy (secretOf ctx Secrets.OAUTH2_CLIENT_CREDENTIALS_CLIENT_SECRET) then
    getClientCredentialsToken oracle
      { tokenUrl := envOf ctx Env.OAUTH2_CLIENT_CREDENTIALS_TOKEN_URL,
        clientId := envOf ctx Env.OAUTH2_CLIENT_CREDENTIALS_CLIENT_ID,
        clientSecret := secretOf ctx Secrets.OAUTH2_CLIENT_CREDENTIALS_CLIENT_SECRET,
        scope := envOf ctx Env.OAUTH2_CLIENT_CREDENTIALS_SCOPE,
        audience := envOf ctx Env.OAUTH2_CLIENT_CREDENTIALS_AUDIENCE,
        authStyle := envOf ctx Env.OAUTH2_CLIENT_CREDENTIALS_AUTH_STYLE }
  else
    (.error "TypeError: accessToken is undefined", [])

/-- The `try` block of the retry branch of the `error` handler
(`src/script.mjs` lines 254-289): re-resolve address and credentials, re-run
the membership request; a 204 yields the recovered outcome (`.ok (some o)`),
any other status falls through without raising (`.ok none`), and a thrown
error is reported as `.error` (to be swallowed by the caller).  A fully
absent address makes `address.endsWith` inside `addUserToGroup` raise a
`TypeError` (after auth resolution, before any request), modelled as the
error result. -/
def retryAttempt (oracle : Oracle) (p : ErrorParams) (ctx : Context) :
    Except String (Option Outcome) × List Effect :=
  let address := jsOr p.address (envOf ctx Env.ADDRESS)
  match retryAuthResolve oracle ctx with
  | (.error e, eff) => (.error e, eff)
  | (.ok token, eff) =>
    match address with
    | none => (.error "TypeError: address is undefined", eff)
    | some a =>
      match addUserToGroup oracle (jsToString p.userPrincipalName)
          (jsToString p.groupId) a token with
      | (.error e, eff2) => (.error e, eff ++ eff2)
      | (.ok r, eff2) =>
        if r.status == 204 then
          (.ok (some { status := "recovered", userPrincipalName := p.userPrincipalName,
                       groupId := p.groupId, added := some true }), eff ++ eff2)
        else (.ok none, eff ++ eff2)

/-- Embedding of the `error` recovery handler of `src/script.mjs`
(lines 240-300): retryable substring check, 5-second wait plus one local
retry, 401/403 re-raise, and the default `retry_requested` outcome. -/
def errorHandler (oracle : Oracle) (p : ErrorParams) (ctx : Context) :
    Except String Outcome × List Effect :=
  let msg := p.errorMessage
  let retryable := includesSub msg "429" || includesSub msg "502" ||
    includesSub msg "503" || includesSub msg "504"
  let step1 : Option Outcome × List Effect :=
    if retryable then
      match retryAttempt oracle p ctx with
      | (.ok (some o), eff) => (some o, Effect.sleep 5000 :: eff)
      | (.ok none, eff) => (none, Effect.sleep 5000 :: eff)
      | (.error _, eff) => (none, Effect.sleep 5000 :: eff)
    else (none, [])
  match step1 with
  | (some o, eff) => (.ok o, eff)
  | (none, eff) =>
    if includesSub msg "401" || includesSub msg "403" then (.error msg, eff)
    else (.ok { status := "retry_requested" }, eff)

section SubstringLemmas

/-- A list starts with itself followed by anything. -/
theorem startsWithList_append (sub t : List Char) : startsWithList (sub ++ t) sub = true := by
  induction sub with
  | nil => cases t <;> rfl
  | cons a as ih => simp [startsWithList, ih]

/-- Containment holds when the substring sits at the front. -/
theorem containsList_of_startsWith (l sub : List Char) (h : startsWithList l sub = true) :
    containsList l sub = true := by
  cases l with
  | nil =>
    cases sub with
    | nil => rfl
    | cons b bs => simp [startsWithList] at h
  | cons x xs => simp [containsList, h]

/-- Containment is preserved by extending the haystack on the left. -/
theorem containsList_cons (x : Char) (l sub : List Char) (h : containsList l sub = true) :
    containsList (x :: l) sub = true := by
  simp [containsList, h]

/-- Containment of a contiguous slice. -/
theorem containsList_append (a sub t : List Char) : containsList (a ++ (sub ++ t)) sub = true := by
  induction a with
  | nil => exact containsList_of_startsWith _ _ (startsWithList_append sub t)
  | cons x xs ih => exact containsList_cons x _ _ ih

/-- String-level containment of a concatenated-in substring: if the
character data of `s` splits as `x ++ sub.data ++ z` then `s.includes(sub)`. -/
theorem includesSub_of_parts (s sub : String) (x z : List Char)
    (h : s.data = x ++ (sub.data ++ z)) : includesSub s sub = true := by
  unfold includesSub
  rw [h]
  exact containsList_append x sub.data z

end SubstringLemmas

section ClaimC1

/-- C1: for every invocation of `invoke` with non-empty `userPrincipalName`
and `groupId` for which the membership request yields a response with status
204, `invoke` returns the outcome `status = "success"`, `added = true`, with
both identifiers echoed unchanged, having issued exactly the auth effects
plus the one membership request. -/
theorem invoke_status204_success (oracle : Oracle) (params : Params) (ctx : Context)
    (tok : String) (effA : List Effect) (r : HttpResponse)
    (hU : Truthy params.userPrincipalName = true)
    (hG : Truthy params.groupId = true)
    (hA : Truthy (jsOr params.address (envOf ctx Env.ADDRESS)) = true)
    (hAuth : resolveAccessTokenScript oracle ctx = (.ok tok, effA))
    (hResp : oracle (membershipRequest (jsToString params.userPrincipalName)
      (jsToString params.groupId) (jsToString (jsOr params.address (envOf ctx Env.ADDRESS))) tok) = .ok r)
    (hStatus : r.status = 204) :
    invoke oracle params ctx =
      (.ok { status := "success", userPrincipalName := params.userPrincipalName,
             groupId := params.groupId, added := some true },
       effA ++ [.httpRequest (membershipRequest (jsToString params.userPrincipalName)
         (jsToString params.groupId) (jsToString (jsOr params.address (envOf ctx Env.ADDRESS))) tok)]) := by
  simp [invoke, hU, hG, hA, hAuth, addUserToGroup, hResp, hStatus]

/-- Test fixture: context configured with a pre-issued OAuth2 access token
and a default address, as in the repository's jest tests. -/
def ctxAuthCode : Context :=
  { environment := some { ADDRESS := some "https://graph.microsoft.com" },
    secrets := some { OAUTH2_AUTHORIZATION_CODE_ACCESS_TOKEN := some "test-token-123456" } }

/-- Test fixture: the standard valid parameter pair of the jest tests. -/
def paramsStd : Params :=
  { userPrincipalName := some "test-user@example.com",
    groupId := some "12345678-1234-1234-1234-123456789012" }

/-- Test fixture: a network that answers every request with 204 No Content. -/
def oracle204 : Oracle :=
  fun _ => .ok { status := 204, statusText := "No Content", text := "", accessTokenField := none }

/-- Test fixture: a network that answers 400 with an "already a member" body. -/
def oracle400member : Oracle :=
  fun _ => .ok { status := 400, statusText := "Bad Request",
                 text := "User is already a member of the group", accessTokenField := none }

/-- Test fixture: a network that answers 500 Internal Server Error. -/
def oracle500 : Oracle :=
  fun _ => .ok { status := 500, statusText := "Internal Server Error",
                 text := "Server error occurred", accessTokenField := none }

/-- Witness for C1 at the jest-test input: all hypotheses hold concretely
and the handler returns the success outcome. -/
theorem invoke_status204_success_witness :
    invoke oracle204 paramsStd ctxAuthCode =
      (.ok { status := "success", userPrincipalName := some "test-user@example.com",
             groupId := some "12345678-1234-1234-1234-123456789012", added := some true },
       [.httpRequest (membershipRequest "test-user@example.com"
         "12345678-1234-1234-1234-123456789012" "https://graph.microsoft.com" "test-token-123456")]) :=
  invoke_status204_success oracle204 paramsStd ctxAuthCode "test-token-123456" [] _
    rfl rfl rfl rfl rfl rfl

end ClaimC1

section ClaimC2

/-- C2: a 400 response whose body contains "already a member" is classified
as success: `invoke` returns (rather than raising) the outcome
`status = "success"`, `added = false`, identifiers echoed, and a defined
message. -/
theorem invoke_status400_already_member_success (oracle : Oracle) (params : Params)
    (ctx : Context) (tok : String) (effA : List Effect) (r : HttpResponse)
    (hU : Truthy params.userPrincipalName = true)
    (hG : Truthy params.groupId = true)
    (hA : Truthy (jsOr params.address (envOf ctx Env.ADDRESS)) = true)
    (hAuth : resolveAccessTokenScript oracle ctx = (.ok tok, effA))
    (hResp : oracle (membershipRequest (jsToString params.userPrincipalName)
      (jsToString params.groupId) (jsToString (jsOr params.address (envOf ctx Env.ADDRESS))) tok) = .ok r)
    (hStatus : r.status = 400)
    (hBody : includesSub r.text "already a member" = true) :
    invoke oracle params ctx =
      (.ok { status := "success", userPrincipalName := params.userPrincipalName,
             groupId := params.groupId, added := some false,
             message := some "User is already a member of the group" },
       effA ++ [.httpRequest (membershipRequest (jsToString params.userPrincipalName)
         (jsToString params.groupId) (jsToString (jsOr params.address (envOf ctx Env.ADDRESS))) tok)]) := by
  simp [invoke, hU, hG, hA, hAuth, addUserToGroup, hResp, hStatus, hBody]

/-- Witness for C2 at the jest-test input. -/
theorem invoke_status400_already_member_success_witness :
    invoke oracle400member paramsStd ctxAuthCode =
      (.ok { status := "success", userPrincipalName := some "test-user@example.com",
             groupId := some "12345678-1234-1234-1234-123456789012", added := some false,
             message := some "User is already a member of the group" },
       [.httpRequest (membershipRequest "test-user@example.com"
         "12345678-1234-1234-1234-123456789012" "https://graph.microsoft.com" "test-token-123456")]) :=
  invoke_status400_already_member_success oracle400member paramsStd ctxAuthCode
    "test-token-123456" [] _ rfl rfl rfl rfl rfl rfl (by decide)

end ClaimC2

section ClaimC5

/-- C5: when `userPrincipalName` or `groupId` is missing or empty, `invoke`
raises one of the two parameter errors with an empty effect trace: no
network call of any kind (membership or token exchange) is issued and no
authentication resolution is reached. -/
theorem invoke_missing_params_no_network (oracle : Oracle) (params : Params) (ctx : Context)
    (h : Truthy params.userPrincipalName = false ∨ Truthy params.groupId = false) :
    ∃ m, invoke oracle params ctx = (.error m, []) ∧
      (m = "userPrincipalName is required" ∨ m = "groupId is required") := by
  by_cases hU : Truthy params.userPrincipalName
  · have hG : Truthy params.groupId = false := by
      rcases h with h | h
      · rw [hU] at h
        cases h
      · exact h
    exact ⟨"groupId is required", by simp [invoke, hU, hG], Or.inr rfl⟩
  · exact ⟨"userPrincipalName is required",
      by simp [invoke, Bool.of_not_eq_true hU], Or.inl rfl⟩

/-- Witness for C5: the missing-`userPrincipalName` jest test input. -/
theorem invoke_missing_params_no_network_witness :
    ∃ m, invoke oracle204 { groupId := some "12345678-1234-1234-1234-123456789012" } ctxAuthCode
        = (.error m, []) ∧
      (m = "userPrincipalName is required" ∨ m = "groupId is required") :=
  invoke_missing_params_no_network oracle204
    { groupId := some "12345678-1234-1234-1234-123456789012" } ctxAuthCode (Or.inl rfl)

end ClaimC5

section ClaimC10

/-- C10: whenever `invoke` returns normally, the returned outcome's status
is exactly `"success"`; in particular the schema value `"failed"` is never
produced as a returned outcome. -/
theorem invoke_ok_status_success (oracle : Oracle) (params : Params) (ctx : Context)
    (o : Outcome) (eff : List Effect) (h : invoke oracle params ctx = (.ok o, eff)) :
    o.status = "success" ∧ o.status ≠ "failed" := by
  unfold invoke at h
  cases hAd : Truthy (jsOr params.address (envOf ctx Env.ADDRESS)) <;> simp only [hAd] at h <;>
    repeat' split at h
  all_goals try (obtain ⟨h1, h2⟩ := h)
  all_goals simp_all

/-- Witness for C10 at the jest-test 204 input. -/
theorem invoke_ok_status_success_witness :
    ({ status := "success", userPrincipalName := some "test-user@example.com",
       groupId := some "12345678-1234-1234-1234-123456789012",
       added := some true : Outcome }).status = "success" ∧
    ({ status := "success", userPrincipalName := some "test-user@example.com",
       groupId := some "12345678-1234-1234-1234-123456789012",
       added := some true : Outcome }).status ≠ "failed" :=
  invoke_ok_status_success oracle204 paramsStd ctxAuthCode _ _ rfl

end ClaimC10

section ClaimC3

/-- Helper: once validation, address and auth have succeeded, the effect
trace of `invoke` is the auth effects followed by exactly one membership
request, whatever the network answers. -/
theorem invoke_effects (oracle : Oracle) (params : Params) (ctx : Context)
    (tok : String) (effA : List Effect)
    (hU : Truthy params.userPrincipalName = true)
    (hG : Truthy params.groupId = true)
    (hA : Truthy (jsOr params.address (envOf ctx Env.ADDRESS)) = true)
    (hAuth : resolveAccessTokenScript oracle ctx = (.ok tok, effA)) :
    (invoke oracle params ctx).2 = effA ++ [Effect.httpRequest (membershipRequest
      (jsToString params.userPrincipalName) (jsToString params.groupId)
      (jsToString (jsOr params.address (envOf ctx Env.ADDRESS))) tok)] := by
  rcases hcall : oracle (membershipRequest (jsToString params.userPrincipalName)
      (jsToString params.groupId) (jsToString (jsOr params.address (envOf ctx Env.ADDRESS))) tok)
    with e | r
  · simp [invoke, hU, hG, hA, hAuth, addUserToGroup, hcall]
  · by_cases h204 : r.status = 204
    · simp [invoke, hU, hG, hA, hAuth, addUserToGroup, hcall, h204]
    · by_cases h400 : r.status = 400
      · cases hMem : includesSub r.text "already a member" <;>
          simp [invoke, hU, hG, hA, hAuth, addUserToGroup, hcall, h204, h400, hMem]
      · simp [invoke, hU, hG, hA, hAuth, addUserToGroup, hcall, h204, h400]

/-- C3: once a response is received, `invoke` raises an error exactly when
the status is neither 204 nor a 400 whose body contains "already a member";
a plain 400 error's message contains the literal response body, and any
other non-204 error's message contains the numeric status, the status text
and the response body. -/
theorem invoke_error_classification (oracle : Oracle) (params : Params) (ctx : Context)
    (tok : String) (effA : List Effect) (r : HttpResponse)
    (hU : Truthy params.userPrincipalName = true)
    (hG : Truthy params.groupId = true)
    (hA : Truthy (jsOr params.address (envOf ctx Env.ADDRESS)) = true)
    (hAuth : resolveAccessTokenScript oracle ctx = (.ok tok, effA))
    (hResp : oracle (membershipRequest (jsToString params.userPrincipalName)
      (jsToString params.groupId) (jsToString (jsOr params.address (envOf ctx Env.ADDRESS))) tok) = .ok r) :
    ((∃ e, (invoke oracle params ctx).1 = .error e) ↔
      ¬(r.status = 204 ∨ (r.status = 400 ∧ includesSub r.text "already a member" = true))) ∧
    (r.status = 400 → includesSub r.text "already a member" = false →
      ∃ e, (invoke oracle params ctx).1 = .error e ∧ includesSub e r.text = true) ∧
    (r.status ≠ 204 → r.status ≠ 400 →
      ∃ e, (invoke oracle params ctx).1 = .error e ∧
        includesSub e (toString r.status) = true ∧
        includesSub e r.statusText = true ∧ includesSub e r.text = true) := by
  by_cases h204 : r.status = 204
  · have hinv := invoke_status204_success oracle params ctx tok effA r hU hG hA hAuth hResp h204
    refine ⟨?_, ?_, ?_⟩ <;> simp [hinv, h204]
  · by_cases h400 : r.status = 400
    · cases hMem : includesSub r.text "already a member"
      · have hinv : (invoke oracle params ctx).1 = .error ("Bad request: " ++ r.text) := by
          simp [invoke, hU, hG, hA, hAuth, addUserToGroup, hResp, h204, h400, hMem]
        refine ⟨?_, ?_, ?_⟩
        · simp [hinv, h204, h400, hMem]
        · intro _ _
          exact ⟨"Bad request: " ++ r.text, hinv,
            includesSub_of_parts _ _ ("Bad request: ").data [] (by simp)⟩
        · intro _ hne
          exact absurd h400 hne
      · have hinv : invoke oracle params ctx =
            (.ok { status := "success", userPrincipalName := params.userPrincipalName,
                   groupId := params.groupId, added := some false,
                   message := some "User is already a member of the group" },
             effA ++ [.httpRequest (membershipRequest (jsToString params.userPrincipalName)
               (jsToString params.groupId)
               (jsToString (jsOr params.address (envOf ctx Env.ADDRESS))) tok)]) :=
          invoke_status400_already_member_success oracle params ctx tok effA r
            hU hG hA hAuth hResp h400 hMem
        refine ⟨?_, ?_, ?_⟩
        · simp [hinv, h400, hMem]
        · intro _ hfalse
          simp at hfalse
        · intro _ hne
          exact absurd h400 hne
    · have hinv : (invoke oracle params ctx).1 = .error ("Failed to add user to group: " ++
          toString r.status ++ " " ++ r.statusText ++ " - " ++ r.text) := by
        simp [invoke, hU, hG, hA, hAuth, addUserToGroup, hResp, h204, h400]
      refine ⟨?_, ?_, ?_⟩
      · simp [hinv, h204, h400]
      · intro hfalse _
        exact absurd hfalse h400
      · intro _ _
        refine ⟨_, hinv, ?_, ?_, ?_⟩
        · exact includesSub_of_parts _ _ ("Failed to add user to group: ").data
            (" ".data ++ r.statusText.data ++ " - ".data ++ r.text.data) (by simp)
        · exact includesSub_of_parts _ _
            (("Failed to add user to group: ").data ++ (toString r.status).data ++ " ".data)
            (" - ".data ++ r.text.data) (by simp)
        · exact includesSub_of_parts _ _
            (("Failed to add user to group: ").data ++ (toString r.status).data ++ " ".data ++
              r.statusText.data ++ " - ".data) [] (by simp)

/-- Witness for C3 at the jest-test 500 input: the handler raises, and the
message carries status, status text and body. -/
theorem invoke_error_classification_witness :
    ((∃ e, (invoke oracle500 paramsStd ctxAuthCode).1 = .error e) ↔
      ¬((500 : Nat) = 204 ∨ ((500 : Nat) = 400 ∧
        includesSub "Server error occurred" "already a member" = true))) ∧
    ((500 : Nat) = 400 → includesSub "Server error occurred" "already a member" = false →
      ∃ e, (invoke oracle500 paramsStd ctxAuthCode).1 = .error e ∧
        includesSub e "Server error occurred" = true) ∧
    ((500 : Nat) ≠ 204 → (500 : Nat) ≠ 400 →
      ∃ e, (invoke oracle500 paramsStd ctxAuthCode).1 = .error e ∧
        includesSub e (toString (500 : Nat)) = true ∧
        includesSub e "Internal Server Error" = true ∧
        includesSub e "Server error occurred" = true) :=
  invoke_error_classification oracle500 paramsStd ctxAuthCode "test-token-123456" []
    { status := 500, statusText := "Internal Server Error",
      text := "Server error occurred", accessTokenField := none }
    rfl rfl rfl rfl rfl

end ClaimC3

section ClaimC6

/-- C6: whenever `invoke` reaches the membership request, the emitted
request's URL is the resolved base address (params first, environment
second, one trailing slash stripped) followed by
`/v1.0/groups/<encoded groupId>/members/$ref`, and its body is the OData
reference against the fixed `graph.microsoft.com` host with the encoded
user principal name; and when neither address source is set, `invoke` fails
with the configuration error before issuing any request. -/
theorem invoke_request_shape (oracle : Oracle) (params : Params) (ctx : Context) :
    (∀ tok effA, Truthy params.userPrincipalName = true → Truthy params.groupId = true →
      Truthy (jsOr params.address (envOf ctx Env.ADDRESS)) = true →
      resolveAccessTokenScript oracle ctx = (.ok tok, effA) →
      ∃ req, (invoke oracle params ctx).2 = effA ++ [Effect.httpRequest req] ∧
        req.url = (let B := if Truthy params.address then jsToString params.address
                     else jsToString (envOf ctx Env.ADDRESS);
          (if B.endsWith "/" then B.dropRight 1 else B) ++ "/v1.0/groups/" ++
            encodeURIComponent (jsToString params.groupId) ++ "/members/$ref") ∧
        req.body = "\x7b\"@odata.id\":\"https://graph.microsoft.com/v1.0/users/" ++
          encodeURIComponent (jsToString params.userPrincipalName) ++ "\"\x7d") ∧
    (Truthy params.userPrincipalName = true → Truthy params.groupId = true →
      Truthy (jsOr params.address (envOf ctx Env.ADDRESS)) = false →
      invoke oracle params ctx =
        (.error "No URL specified. Provide either address parameter or ADDRESS environment variable",
         [])) := by
  constructor
  · intro tok effA hU hG hA hAuth
    refine ⟨membershipRequest (jsToString params.userPrincipalName) (jsToString params.groupId)
      (jsToString (jsOr params.address (envOf ctx Env.ADDRESS))) tok,
      invoke_effects oracle params ctx tok effA hU hG hA hAuth, ?_, ?_⟩
    · simp only [membershipRequest, jsOr]
      by_cases hPA : Truthy params.address <;> simp [hPA]
    · simp [membershipRequest]
  · intro hU hG hA
    simp [invoke, hU, hG, hA]

/-- Test fixture: the auth-code context without any configured address. -/
def ctxNoAddress : Context :=
  { environment := some {},
    secrets := some { OAUTH2_AUTHORIZATION_CODE_ACCESS_TOKEN := some "test-token-123456" } }

/-- Witness for C6: the request-shape branch at the jest-test input, and the
missing-address branch at the address-free context. -/
theorem invoke_request_shape_witness :
    (∃ req, (invoke oracle204 paramsStd ctxAuthCode).2 = [] ++ [Effect.httpRequest req] ∧
      req.url = (let B := if Truthy paramsStd.address then jsToString paramsStd.address
                   else jsToString (envOf ctxAuthCode Env.ADDRESS);
        (if B.endsWith "/" then B.dropRight 1 else B) ++ "/v1.0/groups/" ++
          encodeURIComponent (jsToString paramsStd.groupId) ++ "/members/$ref") ∧
      req.body = "\x7b\"@odata.id\":\"https://graph.microsoft.com/v1.0/users/" ++
        encodeURIComponent (jsToString paramsStd.userPrincipalName) ++ "\"\x7d") ∧
    invoke oracle204 paramsStd ctxNoAddress =
      (.error "No URL specified. Provide either address parameter or ADDRESS environment variable",
       []) :=
  ⟨(invoke_request_shape oracle204 paramsStd ctxAuthCode).1 "test-token-123456" [] rfl rfl rfl rfl,
   (invoke_request_shape oracle204 paramsStd ctxNoAddress).2 rfl rfl rfl⟩

end ClaimC6

section ClaimC4

/-- C4: the authentication resolver (`getAuthorizationHeader` of
`dist/index.js`) tries exactly four credential schemes in fixed priority
order — static bearer secret, basic username/password pair, pre-issued
OAuth2 authorization-code access token, OAuth2 client-credentials exchange —
uses the first configured scheme (scheme 4 performing the token-exchange
request), and when none is configured fails with a configuration error whose
message names all four schemes. -/
theorem getAuthorizationHeader_priority_order (oracle : Oracle) (ctx : Context) :
    (Truthy (secretOf ctx Secrets.BEARER_AUTH_TOKEN) = true →
      getAuthorizationHeader oracle ctx =
        (.ok (bearerize (jsToString (secretOf ctx Secrets.BEARER_AUTH_TOKEN))), [])) ∧
    (Truthy (secretOf ctx Secrets.BEARER_AUTH_TOKEN) = false →
      (Truthy (secretOf ctx Secrets.BASIC_PASSWORD) &&
        Truthy (secretOf ctx Secrets.BASIC_USERNAME)) = true →
      getAuthorizationHeader oracle ctx =
        (.ok ("Basic " ++ base64Encode (stringUtf8Bytes
          (jsToString (secretOf ctx Secrets.BASIC_USERNAME) ++ ":" ++
            jsToString (secretOf ctx Secrets.BASIC_PASSWORD)))), [])) ∧
    (Truthy (secretOf ctx Secrets.BEARER_AUTH_TOKEN) = false →
      (Truthy (secretOf ctx Secrets.BASIC_PASSWORD) &&
        Truthy (secretOf ctx Secrets.BASIC_USERNAME)) = false →
      Truthy (secretOf ctx Secrets.OAUTH2_AUTHORIZATION_CODE_ACCESS_TOKEN) = true →
      getAuthorizationHeader oracle ctx =
        (.ok (bearerize (jsToString
          (secretOf ctx Secrets.OAUTH2_AUTHORIZATION_CODE_ACCESS_TOKEN))), [])) ∧
    (Truthy (secretOf ctx Secrets.BEARER_AUTH_TOKEN) = false →
      (Truthy (secretOf ctx Secrets.BASIC_PASSWORD) &&
        Truthy (secretOf ctx Secrets.BASIC_USERNAME)) = false →
      Truthy (secretOf ctx Secrets.OAUTH2_AUTHORIZATION_CODE_ACCESS_TOKEN) = false →
      Truthy (secretOf ctx Secrets.OAUTH2_CLIENT_CREDENTIALS_CLIENT_SECRET) = true →
      (¬(Truthy (envOf ctx Env.OAUTH2_CLIENT_CREDENTIALS_TOKEN_URL) = true ∧
          Truthy (envOf ctx Env.OAUTH2_CLIENT_CREDENTIALS_CLIENT_ID) = true) →
        getAuthorizationHeader oracle ctx =
          (.error "OAuth2 Client Credentials flow requires TOKEN_URL and CLIENT_ID in env", [])) ∧
      (Truthy (envOf ctx Env.OAUTH2_CLIENT_CREDENTIALS_TOKEN_URL) = true →
        Truthy (envOf ctx Env.OAUTH2_CLIENT_CREDENTIALS_CLIENT_ID) = true →
        getAuthorizationHeader oracle ctx =
          (match getClientCredentialsToken oracle
            { tokenUrl := envOf ctx Env.OAUTH2_CLIENT_CREDENTIALS_TOKEN_URL,
              clientId := envOf ctx Env.OAUTH2_CLIENT_CREDENTIALS_CLIENT_ID,
              clientSecret := secretOf ctx Secrets.OAUTH2_CLIENT_CREDENTIALS_CLIENT_SECRET,
              scope := envOf ctx Env.OAUTH2_CLIENT_CREDENTIALS_SCOPE,
              audience := envOf ctx Env.OAUTH2_CLIENT_CREDENTIALS_AUDIENCE,
              authStyle := envOf ctx Env.OAUTH2_CLIENT_CREDENTIALS_AUTH_STYLE } with
          | (.ok t, eff) => (.ok ("Bearer " ++ t), eff)
          | (.error e, eff) => (.error e, eff)))) ∧
    (Truthy (secretOf ctx Secrets.BEARER_AUTH_TOKEN) = false →
      (Truthy (secretOf ctx Secrets.BASIC_PASSWORD) &&
        Truthy (secretOf ctx Secrets.BASIC_USERNAME)) = false →
      Truthy (secretOf ctx Secrets.OAUTH2_AUTHORIZATION_CODE_ACCESS_TOKEN) = false →
      Truthy (secretOf ctx Secrets.OAUTH2_CLIENT_CREDENTIALS_CLIENT_SECRET) = false →
      getAuthorizationHeader oracle ctx = (.error noAuthConfiguredMessage, []) ∧
      includesSub noAuthConfiguredMessage "BEARER_AUTH_TOKEN" = true ∧
      includesSub noAuthConfiguredMessage "BASIC_USERNAME" = true ∧
      includesSub noAuthConfiguredMessage "BASIC_PASSWORD" = true ∧
      includesSub noAuthConfiguredMessage "OAUTH2_AUTHORIZATION_CODE_ACCESS_TOKEN" = true ∧
      includesSub noAuthConfiguredMessage "OAUTH2_CLIENT_CREDENTIALS" = true) := by
  refine ⟨?_, ?_, ?_, ?_, ?_⟩
  · intro h1
    simp [getAuthorizationHeader, h1]
  · intro h1 h2
    simp [getAuthorizationHeader, h1, h2]
  · intro h1 h2 h3
    simp [getAuthorizationHeader, h1, h2, h3]
  · intro h1 h2 h3 h4
    constructor
    · intro hNot
      cases hT : Truthy (envOf ctx Env.OAUTH2_CLIENT_CREDENTIALS_TOKEN_URL) <;>
        cases hC : Truthy (envOf ctx Env.OAUTH2_CLIENT_CREDENTIALS_CLIENT_ID)
      · simp [getAuthorizationHeader, h1, h2, h3, h4, hT, hC]
      · simp [getAuthorizationHeader, h1, h2, h3, h4, hT, hC]
      · simp [getAuthorizationHeader, h1, h2, h3, h4, hT, hC]
      · exact absurd ⟨hT, hC⟩ hNot
    · intro hT hC
      simp [getAuthorizationHeader, h1, h2, h3, h4, hT, hC]
  · intro h1 h2 h3 h4
    refine ⟨by simp [getAuthorizationHeader, h1, h2, h3, h4], ?_, ?_, ?_, ?_, ?_⟩ <;> decide

/-- Test fixture: a context with only the static bearer secret. -/
def ctxBearer : Context :=
  { secrets := some { BEARER_AUTH_TOKEN := some "abc" } }

/-- Test fixture: an entirely empty execution context. -/
def ctxEmpty : Context := {}

/-- Witness for C4: the first-scheme branch at a bearer-only context, and
the no-scheme branch (with its four-name error message) at the empty
context. -/
theorem getAuthorizationHeader_priority_order_witness :
    (getAuthorizationHeader oracle204 ctxBearer =
      (.ok (bearerize (jsToString (secretOf ctxBearer Secrets.BEARER_AUTH_TOKEN))), [])) ∧
    (getAuthorizationHeader oracle204 ctxEmpty = (.error noAuthConfiguredMessage, []) ∧
      includesSub noAuthConfiguredMessage "BEARER_AUTH_TOKEN" = true ∧
      includesSub noAuthConfiguredMessage "BASIC_USERNAME" = true ∧
      includesSub noAuthConfiguredMessage "BASIC_PASSWORD" = true ∧
      includesSub noAuthConfiguredMessage "OAUTH2_AUTHORIZATION_CODE_ACCESS_TOKEN" = true ∧
      includesSub noAuthConfiguredMessage "OAUTH2_CLIENT_CREDENTIALS" = true) :=
  ⟨(getAuthorizationHeader_priority_order oracle204 ctxBearer).1 rfl,
   (getAuthorizationHeader_priority_order oracle204 ctxEmpty).2.2.2.2 rfl rfl rfl rfl⟩

end ClaimC4

section ClaimC8

/-- Test fixture: error-handler parameters whose triggering message contains
both the retryable marker "429" and the non-retryable marker "401". -/
def pOverlap : ErrorParams :=
  { userPrincipalName := some "u", groupId := some "g", errorMessage := "429 and 401" }

/-- Counterexample to C8 as stated: with a triggering message containing
"429" (and also "401") and a retry that yields status 500, the handler does
not return `retry_requested` — it re-raises the original error (after
sleeping and retrying), because the 401/403 check is reached after a failed
retry and the original message also matches it. -/
theorem errorHandler_c8_counterexample :
    errorHandler oracle500 pOverlap ctxAuthCode =
      (.error "429 and 401",
       [Effect.sleep 5000, Effect.httpRequest (membershipRequest "u" "g"
         "https://graph.microsoft.com" "test-token-123456")]) ∧
    ¬∃ o eff, errorHandler oracle500 pOverlap ctxAuthCode = (.ok o, eff) := by
  refine ⟨rfl, ?_⟩
  rintro ⟨o, eff, h⟩
  rw [show errorHandler oracle500 pOverlap ctxAuthCode =
    (.error "429 and 401",
     [Effect.sleep 5000, Effect.httpRequest (membershipRequest "u" "g"
       "https://graph.microsoft.com" "test-token-123456")]) from rfl] at h
  simp at h

/-- C8 (amended): when the triggering message contains one of
429/502/503/504 and contains neither "401" nor "403", and the retry's base
URL and credentials resolve, the handler sleeps the fixed 5000 ms, performs
exactly one retry of the full request; a 204 yields the recovered outcome
with identifiers echoed, anything else (another status or a thrown fetch
error) yields `retry_requested` without raising. -/
theorem errorHandler_retryable_one_retry (oracle : Oracle) (p : ErrorParams) (ctx : Context)
    (tok : String) (effA : List Effect) (a : String)
    (hR : (includesSub p.errorMessage "429" || includesSub p.errorMessage "502" ||
      includesSub p.errorMessage "503" || includesSub p.errorMessage "504") = true)
    (h401 : includesSub p.errorMessage "401" = false)
    (h403 : includesSub p.errorMessage "403" = false)
    (hAuth : retryAuthResolve oracle ctx = (.ok tok, effA))
    (hAddr : jsOr p.address (envOf ctx Env.ADDRESS) = some a) :
    errorHandler oracle p ctx =
      (match oracle (membershipRequest (jsToString p.userPrincipalName)
          (jsToString p.groupId) a tok) with
       | .ok r =>
         if r.status == 204 then
           (.ok { status := "recovered", userPrincipalName := p.userPrincipalName,
                  groupId := p.groupId, added := some true },
            Effect.sleep 5000 :: (effA ++ [Effect.httpRequest (membershipRequest
              (jsToString p.userPrincipalName) (jsToString p.groupId) a tok)]))
         else
           (.ok { status := "retry_requested" },
            Effect.sleep 5000 :: (effA ++ [Effect.httpRequest (membershipRequest
              (jsToString p.userPrincipalName) (jsToString p.groupId) a tok)]))
       | .error _ =>
         (.ok { status := "retry_requested" },
          Effect.sleep 5000 :: (effA ++ [Effect.httpRequest (membershipRequest
            (jsToString p.userPrincipalName) (jsToString p.groupId) a tok)]))) := by
  rcases hcall : oracle (membershipRequest (jsToString p.userPrincipalName)
      (jsToString p.groupId) a tok) with e | r
  · simp [errorHandler, retryAttempt, hR, h401, h403, hAuth, hAddr, addUserToGroup, hcall]
  · by_cases h204 : r.status = 204
    · simp [errorHandler, retryAttempt, hR, h401, h403, hAuth, hAddr, addUserToGroup, hcall, h204]
    · simp [errorHandler, retryAttempt, hR, h401, h403, hAuth, hAddr, addUserToGroup, hcall, h204]

/-- Test fixture: error-handler parameters with a purely retryable message. -/
def pRetryable : ErrorParams :=
  { userPrincipalName := some "u", groupId := some "g", errorMessage := "rate 429" }

/-- Witness for the amended C8: a "rate 429" message with a 204 retry
answer yields the recovered outcome after one sleep and one request. -/
theorem errorHandler_retryable_one_retry_witness :
    errorHandler oracle204 pRetryable ctxAuthCode =
      (.ok { status := "recovered", userPrincipalName := some "u",
             groupId := some "g", added := some true },
       [Effect.sleep 5000, Effect.httpRequest (membershipRequest "u" "g"
         "https://graph.microsoft.com" "test-token-123456")]) :=
  errorHandler_retryable_one_retry oracle204 pRetryable ctxAuthCode
    "test-token-123456" [] "https://graph.microsoft.com" rfl rfl rfl rfl rfl

end ClaimC8

section ClaimC9

/-- Counterexample to C9 as stated: a triggering message containing "401"
but also "429", with a retry that answers 204, makes the handler sleep,
retry, and return a recovered outcome — it neither re-raises immediately nor
avoids the delay and the retry call. -/
theorem errorHandler_c9_counterexample :
    errorHandler oracle204 pOverlap ctxAuthCode =
      (.ok { status := "recovered", userPrincipalName := some "u",
             groupId := some "g", added := some true },
       [Effect.sleep 5000, Effect.httpRequest (membershipRequest "u" "g"
         "https://graph.microsoft.com" "test-token-123456")]) ∧
    (errorHandler oracle204 pOverlap ctxAuthCode).2 ≠ [] := by
  refine ⟨rfl, ?_⟩
  rw [show (errorHandler oracle204 pOverlap ctxAuthCode).2 =
    [Effect.sleep 5000, Effect.httpRequest (membershipRequest "u" "g"
      "https://graph.microsoft.com" "test-token-123456")] from rfl]
  simp

/-- C9 (amended): when the triggering message contains "401" or "403" and
none of the retryable markers 429/502/503/504, the handler re-raises the
original error immediately, with no delay and no retry call (empty effect
trace). -/
theorem errorHandler_auth_error_reraise (oracle : Oracle) (p : ErrorParams) (ctx : Context)
    (h14 : (includesSub p.errorMessage "401" || includesSub p.errorMessage "403") = true)
    (h429 : includesSub p.errorMessage "429" = false)
    (h502 : includesSub p.errorMessage "502" = false)
    (h503 : includesSub p.errorMessage "503" = false)
    (h504 : includesSub p.errorMessage "504" = false) :
    errorHandler oracle p ctx = (.error p.errorMessage, []) := by
  simp [errorHandler, h14, h429, h502, h503, h504]

/-- Test fixture: error-handler parameters with a purely non-retryable
authentication-error message. -/
def pAuth401 : ErrorParams :=
  { userPrincipalName := some "u", groupId := some "g", errorMessage := "auth 401" }

/-- Witness for the amended C9: an "auth 401" message is re-raised with an
empty effect trace. -/
theorem errorHandler_auth_error_reraise_witness :
    errorHandler oracle204 pAuth401 ctxAuthCode = (.error "auth 401", []) :=
  errorHandler_auth_error_reraise oracle204 pAuth401 ctxAuthCode rfl rfl rfl rfl rfl

end ClaimC9

section ClaimC7

/-- Hex digits produced by the encoder decode back to their value. -/
theorem hexVal_hexDigitChar : ∀ x, x < 16 → hexVal (hexDigitChar x) = some x := by
  decide

/-- Stage-1 decoding steps over a plain (non-`%`) character. -/
theorem percentDecodeBytes_plain (c : Char) (hc : (c == '%') = false) (cs : List Char) :
    percentDecodeBytes (c :: cs) = (percentDecodeBytes cs).map (fun bs => c.toNat :: bs) := by
  rcases cs with _ | ⟨h, _ | ⟨l, cs⟩⟩ <;> simp only [percentDecodeBytes, hc] <;> simp

/-- Stage-1 decoding turns a well-formed `%XY` escape into its byte. -/
theorem percentDecodeBytes_escape (h l : Char) (hv lv : Nat)
    (hh : hexVal h = some hv) (hl : hexVal l = some lv) (cs : List Char) :
    percentDecodeBytes ('%' :: h :: l :: cs) =
      (percentDecodeBytes cs).map (fun bs => (16 * hv + lv) :: bs) := by
  simp only [percentDecodeBytes, hh, hl]
  simp

/-- Stage-1 decoding inverts the encoder's escape of one byte. -/
theorem percentDecodeBytes_encodeByte (b : Nat) (hb : b < 256) (l : List Char) :
    percentDecodeBytes (percentEncodeByte b ++ l) =
      (percentDecodeBytes l).map (fun bs => b :: bs) := by
  have h1 : hexVal (hexDigitChar (b / 16)) = some (b / 16) :=
    hexVal_hexDigitChar _ (by omega)
  have h2 : hexVal (hexDigitChar (b % 16)) = some (b % 16) :=
    hexVal_hexDigitChar _ (by omega)
  have e : 16 * (b / 16) + b % 16 = b := by omega
  simp only [percentEncodeByte, List.cons_append, List.nil_append]
  rw [percentDecodeBytes_escape _ _ _ _ h1 h2, e]

/-- The scalar value of every character is a valid Unicode scalar value. -/
theorem char_valid_nat (c : Char) :
    c.toNat < 55296 ∨ (57343 < c.toNat ∧ c.toNat < 1114112) := by
  rcases c.valid with h | ⟨h1, h2⟩
  · left
    exact h
  · right
    exact ⟨h1, h2⟩

/-- Unreserved characters are ASCII and are not the escape character. -/
theorem uriUnreserved_facts (c : Char) (h : isUriUnreserved c = true) :
    c.toNat < 128 ∧ (c == '%') = false := by
  simp only [isUriUnreserved, decide_eq_true_eq] at h
  constructor
  · rcases h with h | h | h | h | h | h | h | h | h | h | h | h <;> omega
  · refine beq_eq_false_iff_ne.mpr ?_
    intro hc
    subst hc
    revert h
    decide

/-- Every byte of a UTF-8 encoding is a byte. -/
theorem utf8Bytes_lt_256 (n : Nat) (hn : n < 1114112) : ∀ b ∈ utf8Bytes n, b < 256 := by
  intro b hb
  unfold utf8Bytes at hb
  by_cases h1 : n < 128
  · simp [h1] at hb
    omega
  · by_cases h2 : n < 2048
    · simp [h1, h2] at hb
      rcases hb with hb | hb <;> omega
    · by_cases h3 : n < 65536
      · simp [h1, h2, h3] at hb
        rcases hb with hb | hb | hb <;> omega
      · simp [h1, h2, h3] at hb
        rcases hb with hb | hb | hb | hb <;> omega

/-- Stage-1 decoding inverts the encoder's escape of a byte sequence. -/
theorem percentDecodeBytes_flatMap (bs : List Nat) (h : ∀ b ∈ bs, b < 256) (l : List Char) :
    percentDecodeBytes (bs.flatMap percentEncodeByte ++ l) =
      (percentDecodeBytes l).map (fun t => bs ++ t) := by
  induction bs with
  | nil => simp
  | cons b bt ih =>
    have hb : b < 256 := h b (by simp)
    have ht : ∀ x ∈ bt, x < 256 := fun x hx => h x (by simp [hx])
    simp only [List.flatMap_cons, List.append_assoc]
    rw [percentDecodeBytes_encodeByte b hb, ih ht, Option.map_map]
    rfl

/-- Stage-1 decoding inverts the encoding of one character, byte-wise. -/
theorem percentDecodeBytes_encodeChar (c : Char) (l : List Char) :
    percentDecodeBytes (encodeChar c ++ l) =
      (percentDecodeBytes l).map (fun bs => utf8Bytes c.toNat ++ bs) := by
  by_cases hU : isUriUnreserved c
  · obtain ⟨h128, hne⟩ := uriUnreserved_facts c hU
    have hsingle : utf8Bytes c.toNat = [c.toNat] := by
      unfold utf8Bytes
      rw [if_pos h128]
    simp only [encodeChar, hU, if_true, List.singleton_append, hsingle]
    rw [percentDecodeBytes_plain c hne]
  · have hlt : c.toNat < 1114112 := by
      rcases char_valid_nat c with h | h <;> omega
    simp only [encodeChar, hU, if_false, Bool.false_eq_true]
    exact percentDecodeBytes_flatMap _ (utf8Bytes_lt_256 _ hlt) l

/-- Stage-1 decoding of a fully encoded string yields its UTF-8 bytes. -/
theorem percentDecodeBytes_encode (cs : List Char) :
    percentDecodeBytes (cs.flatMap encodeChar) =
      some (cs.flatMap (fun c => utf8Bytes c.toNat)) := by
  induction cs with
  | nil => rfl
  | cons c ct ih =>
    simp only [List.flatMap_cons]
    rw [percentDecodeBytes_encodeChar c, ih]
    rfl

/-- Decoding steps over an ASCII byte. -/
theorem utf8DecodeGo_ascii (b : Nat) (h : b < 128) (l : List Nat) :
    utf8DecodeGo 0 0 0 (b :: l) = (utf8DecodeGo 0 0 0 l).map (fun cs => Char.ofNat b :: cs) := by
  simp only [utf8DecodeGo]
  rw [if_pos h]

/-- Decoding steps over a two-byte UTF-8 sequence. -/
theorem utf8DecodeGo_two (n : Nat) (h1 : 128 ≤ n) (h2 : n < 2048) (l : List Nat) :
    utf8DecodeGo 0 0 0 ((192 + n / 64) :: (128 + n % 64) :: l) =
      (utf8DecodeGo 0 0 0 l).map (fun cs => Char.ofNat n :: cs) := by
  simp only [utf8DecodeGo]
  rw [if_neg (show ¬ 192 + n / 64 < 128 by omega), if_neg (show ¬ 192 + n / 64 < 192 by omega),
    if_pos (show 192 + n / 64 < 224 by omega)]
  rw [if_pos (show 128 ≤ 128 + n % 64 ∧ 128 + n % 64 < 192 by omega), if_pos trivial]
  have e : (192 + n / 64 - 192) * 64 + (128 + n % 64 - 128) = n := by omega
  rw [e]
  rw [if_pos (show 128 ≤ n ∧ ¬(55296 ≤ n ∧ n < 57344) ∧ n < 1114112 by omega)]

/-- Decoding steps over a three-byte UTF-8 sequence of a non-surrogate. -/
theorem utf8DecodeGo_three (n : Nat) (h1 : 2048 ≤ n) (h2 : n < 65536)
    (hs : ¬(55296 ≤ n ∧ n < 57344)) (l : List Nat) :
    utf8DecodeGo 0 0 0 ((224 + n / 4096) :: (128 + n / 64 % 64) :: (128 + n % 64) :: l) =
      (utf8DecodeGo 0 0 0 l).map (fun cs => Char.ofNat n :: cs) := by
  simp only [utf8DecodeGo]
  rw [if_neg (show ¬ 224 + n / 4096 < 128 by omega), if_neg (show ¬ 224 + n / 4096 < 192 by omega),
    if_neg (show ¬ 224 + n / 4096 < 224 by omega), if_pos (show 224 + n / 4096 < 240 by omega)]
  rw [if_pos (show 128 ≤ 128 + n / 64 % 64 ∧ 128 + n / 64 % 64 < 192 by omega),
    if_neg (show ¬ (1 : Nat) = 0 by omega),
    if_pos (show 128 ≤ 128 + n % 64 ∧ 128 + n % 64 < 192 by omega), if_pos trivial]
  have e : ((224 + n / 4096 - 224) * 64 + (128 + n / 64 % 64 - 128)) * 64 + (128 + n % 64 - 128)
      = n := by omega
  rw [e]
  rw [if_pos (show 2048 ≤ n ∧ ¬(55296 ≤ n ∧ n < 57344) ∧ n < 1114112 from ⟨h1, hs, by omega⟩)]

/-- Decoding steps over a four-byte UTF-8 sequence. -/
theorem utf8DecodeGo_four (n : Nat) (h1 : 65536 ≤ n) (h2 : n < 1114112) (l : List Nat) :
    utf8DecodeGo 0 0 0 ((240 + n / 262144) :: (128 + n / 4096 % 64) ::
        (128 + n / 64 % 64) :: (128 + n % 64) :: l) =
      (utf8DecodeGo 0 0 0 l).map (fun cs => Char.ofNat n :: cs) := by
  simp only [utf8DecodeGo]
  rw [if_neg (show ¬ 240 + n / 262144 < 128 by omega),
    if_neg (show ¬ 240 + n / 262144 < 192 by omega),
    if_neg (show ¬ 240 + n / 262144 < 224 by omega),
    if_neg (show ¬ 240 + n / 262144 < 240 by omega),
    if_pos (show 240 + n / 262144 < 248 by omega)]
  rw [if_pos (show 128 ≤ 128 + n / 4096 % 64 ∧ 128 + n / 4096 % 64 < 192 by omega),
    if_neg (show ¬ (2 : Nat) = 0 by omega),
    if_pos (show 128 ≤ 128 + n / 64 % 64 ∧ 128 + n / 64 % 64 < 192 by omega),
    if_neg (show ¬ (1 : Nat) = 0 by omega),
    if_pos (show 128 ≤ 128 + n % 64 ∧ 128 + n % 64 < 192 by omega), if_pos trivial]
  have e : (((240 + n / 262144 - 240) * 64 + (128 + n / 4096 % 64 - 128)) * 64 +
      (128 + n / 64 % 64 - 128)) * 64 + (128 + n % 64 - 128) = n := by omega
  rw [e]
  rw [if_pos (show 65536 ≤ n ∧ ¬(55296 ≤ n ∧ n < 57344) ∧ n < 1114112 by omega)]

/-- Stage-2 decoding inverts the UTF-8 encoding of one character. -/
theorem utf8DecodeGo_bytes (c : Char) (l : List Nat) :
    utf8DecodeGo 0 0 0 (utf8Bytes c.toNat ++ l) =
      (utf8DecodeGo 0 0 0 l).map (fun cs => c :: cs) := by
  have hv := char_valid_nat c
  have hofn : Char.ofNat c.toNat = c := Char.ofNat_toNat c
  by_cases h1 : c.toNat < 128
  · rw [show utf8Bytes c.toNat = [c.toNat] from by unfold utf8Bytes; rw [if_pos h1]]
    rw [List.singleton_append, utf8DecodeGo_ascii _ h1, hofn]
  · by_cases h2 : c.toNat < 2048
    · rw [show utf8Bytes c.toNat = [192 + c.toNat / 64, 128 + c.toNat % 64] from by
        unfold utf8Bytes; rw [if_neg h1, if_pos h2]]
      simp only [List.cons_append, List.nil_append]
      rw [utf8DecodeGo_two c.toNat (by omega) h2, hofn]
    · by_cases h3 : c.toNat < 65536
      · rw [show utf8Bytes c.toNat =
            [224 + c.toNat / 4096, 128 + c.toNat / 64 % 64, 128 + c.toNat % 64] from by
          unfold utf8Bytes; rw [if_neg h1, if_neg h2, if_pos h3]]
        simp only [List.cons_append, List.nil_append]
        rw [utf8DecodeGo_three c.toNat (by omega) h3 (by omega), hofn]
      · rw [show utf8Bytes c.toNat = [240 + c.toNat / 262144, 128 + c.toNat / 4096 % 64,
            128 + c.toNat / 64 % 64, 128 + c.toNat % 64] from by
          unfold utf8Bytes; rw [if_neg h1, if_neg h2, if_neg h3]]
        simp only [List.cons_append, List.nil_append]
        rw [utf8DecodeGo_four c.toNat (by omega) (by omega), hofn]

/-- Stage-2 decoding inverts the UTF-8 encoding of a character sequence. -/
theorem utf8DecodeGo_encode (cs : List Char) :
    utf8DecodeGo 0 0 0 (cs.flatMap (fun c => utf8Bytes c.toNat)) = some cs := by
  induction cs with
  | nil => rfl
  | cons c ct ih =>
    simp only [List.flatMap_cons]
    rw [utf8DecodeGo_bytes c, ih]
    rfl

/-- C7: standard URL-component percent-decoding is a left inverse of the
encoding applied by the action to the group id (URL path) and the user
principal name (OData reference body) — for every identifier string,
decoding the encoded form recovers the original exactly. -/
theorem decodeURIComponent_encodeURIComponent (s : String) :
    decodeURIComponent (encodeURIComponent s) = some s := by
  show (percentDecodeBytes (String.mk (s.data.flatMap encodeChar)).data).bind
    (fun bs => (utf8Decode bs).map String.mk) = some s
  rw [show (String.mk (s.data.flatMap encodeChar)).data = s.data.flatMap encodeChar from rfl]
  rw [percentDecodeBytes_encode]
  show (utf8Decode (s.data.flatMap (fun c => utf8Bytes c.toNat))).map String.mk = some s
  unfold utf8Decode
  rw [utf8DecodeGo_encode]
  rfl

end ClaimC7

end AadAddToGroup
